import Mathlib

/-!
Verification of the case workflow engine of the prenup backend
(`src/cases/cases.service.ts`).  The service mutates a single Case
document per request: it is loaded, mutated in memory, and saved; any
exception thrown before the save leaves the persisted document
unchanged.  We model each service method as a pure function from the
persisted `Case` value to `Except CaseError Case`: an `.error` result
means the method threw before saving, so the persisted case is the
unchanged input.  Object ids are modelled as naturals, timestamps as
naturals (every `new Date()` inside one request is the single `now`
argument), and the step payloads are an arbitrary type `D`, since the
engine treats them as opaque blobs.
-/

namespace Prenup

/-- Per-step status record (`StepStatus` of the case schema, as used by
`cases.service.ts`): submitted and locked flags with actor/time audit. -/
structure StepStatus where
  submitted : Bool
  submittedBy : Option Nat
  submittedAt : Option Nat
  locked : Bool
  lockedBy : Option Nat
  lockedAt : Option Nat
  unlockedBy : Option Nat
  unlockedAt : Option Nat
deriving Repr, DecidableEq

/-- Mirrors `defaultStepStatus()` in `cases.service.ts`. -/
def defaultStepStatus : StepStatus :=
  { submitted := false, submittedBy := none, submittedAt := none,
    locked := false, lockedBy := none, lockedAt := none,
    unlockedBy := none, unlockedAt := none }

/-- Per-party pre-questionnaire record (`PreQuestionnaire` of the case
schema).  `selectedAt` is the ad-hoc field stamped by `selectLawyer`. -/
structure PreQuestionnaire where
  answers : List String
  selectedLawyer : Option Nat
  selectedAt : Option Nat
  submitted : Bool
  submittedBy : Option Nat
  submittedAt : Option Nat
  locked : Bool
  lockedBy : Option Nat
  lockedAt : Option Nat
deriving Repr, DecidableEq

/-- Mirrors `makeEmptyPreQuestionnaire()` in `cases.service.ts`. -/
def makeEmptyPreQuestionnaire : PreQuestionnaire :=
  { answers := [], selectedLawyer := none, selectedAt := none,
    submitted := false, submittedBy := none, submittedAt := none,
    locked := false, lockedBy := none, lockedAt := none }

/-- Approval record (`Approval` of the case schema). -/
structure Approval where
  user1Approved : Bool
  user1ApprovedAt : Option Nat
  user2Approved : Bool
  user2ApprovedAt : Option Nat
  lawyerApproved : Bool
  lawyerApprovedAt : Option Nat
  approvedLawyer : Option Nat
  caseManagerApproved : Bool
  caseManagerApprovedAt : Option Nat
  approvedBy : Option Nat
deriving Repr, DecidableEq

/-- The empty approval object materialized by `ensureApprovalObj`. -/
def defaultApproval : Approval :=
  { user1Approved := false, user1ApprovedAt := none,
    user2Approved := false, user2ApprovedAt := none,
    lawyerApproved := false, lawyerApprovedAt := none, approvedLawyer := none,
    caseManagerApproved := false, caseManagerApprovedAt := none, approvedBy := none }

/-- A fixed seven-slot container for the dynamic step keys
`step1`..`step7` the service addresses by string index. -/
structure StepVec (α : Type) where
  s1 : α
  s2 : α
  s3 : α
  s4 : α
  s5 : α
  s6 : α
  s7 : α
deriving Repr, DecidableEq

namespace StepVec

/-- Slot keyed by the step number 1..7 (none outside that range). -/
def get? (v : StepVec α) : Nat → Option α
  | 1 => some v.s1
  | 2 => some v.s2
  | 3 => some v.s3
  | 4 => some v.s4
  | 5 => some v.s5
  | 6 => some v.s6
  | 7 => some v.s7
  | _ => none

/-- Replace the slot keyed by step number 1..7; identity outside. -/
def set (v : StepVec α) (n : Nat) (x : α) : StepVec α :=
  match n with
  | 1 => { v with s1 := x }
  | 2 => { v with s2 := x }
  | 3 => { v with s3 := x }
  | 4 => { v with s4 := x }
  | 5 => { v with s5 := x }
  | 6 => { v with s6 := x }
  | 7 => { v with s7 := x }
  | _ => v

/-- Apply `f` to all seven slots: this is what every `for i in 1..7`
loop of the service performs. -/
def map (f : α → β) (v : StepVec α) : StepVec β :=
  ⟨f v.s1, f v.s2, f v.s3, f v.s4, f v.s5, f v.s6, f v.s7⟩

/-- All seven slots equal to `x`. -/
def const (x : α) : StepVec α :=
  ⟨x, x, x, x, x, x, x⟩

end StepVec

/-- The Case aggregate: the fields of the case document that the
workflow engine reads or writes. -/
structure Case (D : Type) where
  owner : Nat
  invitedUser : Option Nat
  invitedEmail : Option String
  assignedCaseManager : Option Nat
  workflowStatus : String
  stepData : StepVec (Option D)
  status : StepVec (Option StepStatus)
  fullyLocked : Bool
  fullyLockedBy : Option Nat
  fullyLockedAt : Option Nat
  preQuestionnaireUser1 : Option PreQuestionnaire
  preQuestionnaireUser2 : Option PreQuestionnaire
  approval : Option Approval
  title : String
deriving Repr, DecidableEq

variable {D : Type}

/-- Mirrors `create(ownerId, title)`: a fresh DRAFT case with no step
data, no step statuses, no locks, no pre-questionnaires, no approvals. -/
def createCase (ownerId : Nat) (title : String) : Case D :=
  { owner := ownerId, invitedUser := none, invitedEmail := none,
    assignedCaseManager := none, workflowStatus := "DRAFT",
    stepData := StepVec.const none, status := StepVec.const none,
    fullyLocked := false, fullyLockedBy := none, fullyLockedAt := none,
    preQuestionnaireUser1 := none, preQuestionnaireUser2 := none,
    approval := none, title := title }

/-- Mirrors `attachInvitedUser`: link party 2 to the case. -/
def attachInvitedUser (c : Case D) (userId : Nat) : Case D :=
  { c with invitedUser := some userId }

/-- The `ensureStepStatusObj` read: the stored status for step `n`, or
the default one it would materialize. -/
def ensuredStatus (st : StepVec (Option StepStatus)) (n : Nat) : StepStatus :=
  ((st.get? n).join).getD defaultStepStatus

/-- The `isSubmitted` test of the step-7 cascade: the status object for
step `n` exists and has `submitted` set. -/
def stepSubmittedIn (st : StepVec (Option StepStatus)) (n : Nat) : Bool :=
  match (st.get? n).join with
  | some s => s.submitted
  | none => false

/-- Whether the status object for step `n` exists and has `locked` set. -/
def stepLockedIn (st : StepVec (Option StepStatus)) (n : Nat) : Bool :=
  match (st.get? n).join with
  | some s => s.locked
  | none => false

/-- Mirrors `areAllStepsSubmitted`: all of `status.step1..step7` exist
and are submitted. -/
def areAllStepsSubmitted (c : Case D) : Bool :=
  (List.range' 1 7).all fun n => stepSubmittedIn c.status n

/-- The exception taxonomy of the service (`BadRequestException`,
`NotFoundException`, `ForbiddenException`), with the thrown message. -/
inductive CaseError where
  | badRequest : String → CaseError
  | notFound : String → CaseError
  | forbidden : String → CaseError
deriving Repr, DecidableEq

/-- Marking a step submitted by `actorId` at `now` (lines 103-105). -/
def submitMark (s : StepStatus) (actorId now : Nat) : StepStatus :=
  { s with submitted := true, submittedBy := some actorId, submittedAt := some now }

/-- Marking a step locked by `actorId` at `now` (the step-7 cascade loop). -/
def lockMark (s : StepStatus) (actorId now : Nat) : StepStatus :=
  { s with locked := true, lockedBy := some actorId, lockedAt := some now }

/-- Clearing the lock on a step with unlock audit (`unlockCase` loop and
the PAID branch of `changeWorkflowStatus`). -/
def unlockMark (s : StepStatus) (actorId now : Nat) : StepStatus :=
  { s with locked := false, lockedBy := none, lockedAt := none,
           unlockedBy := some actorId, unlockedAt := some now }

/-- Steps the owner (party 1) must have submitted before step 7 is accepted. -/
def requiredUser1 : List Nat := [1, 2, 5, 6, 7]

/-- Steps the invited party (party 2) must have submitted before step 7 is accepted. -/
def requiredUser2 : List Nat := [3, 4]

/-- Comma-join of step numbers, as in `missingUser1.join(', ')`. -/
def joinSteps (l : List Nat) : String :=
  String.intercalate ", " (l.map toString)

/-- The precondition-failed message of the step-7 cascade, enumerating
the missing steps per party exactly as built in lines 114-118. -/
def step7MissingMessage (missingUser1 missingUser2 : List Nat) : String :=
  let parts :=
    (if missingUser1 ≠ [] then ["owner missing steps: " ++ joinSteps missingUser1] else []) ++
    (if missingUser2 ≠ [] then ["invited user missing steps: " ++ joinSteps missingUser2] else [])
  "Cannot submit step 7. Please ensure all required steps are saved before final submission. " ++
    String.intercalate "; " parts

/-- The `assignedMatches` test of the CM-stage guard: the assigned case
manager exists and is the actor. -/
def assignedManagerMatches (c : Case D) (actorId : Nat) : Prop :=
  c.assignedCaseManager = some actorId

instance (c : Case D) (actorId : Nat) : Decidable (assignedManagerMatches c actorId) := by
  unfold assignedManagerMatches
  infer_instance

/-- The step-7 cascade lock loop: every step status is materialized and
marked locked by `actorId` at `now`. -/
def lockAllSteps (st : StepVec (Option StepStatus)) (actorId now : Nat) :
    StepVec (Option StepStatus) :=
  st.map fun o => some (lockMark (o.getD defaultStepStatus) actorId now)

/-- The status vector after `updateStep` marks step `n` submitted. -/
def markSubmitted (st : StepVec (Option StepStatus)) (n actorId now : Nat) :
    StepVec (Option StepStatus) :=
  st.set n (some (submitMark (ensuredStatus st n) actorId now))

/-- Mirrors `updateStep(caseId, stepNumber, data, actorId, isPrivileged)`
(lines 88-132; the not-found and invalid-id guards concern the lookup,
which is modelled away by passing the case value itself).  Writes the
payload and submission status for the step, and on step 7 runs the
full-lock cascade after checking the invited user and the per-party
required steps. -/
def updateStep (c : Case D) (stepNumber : Nat) (data : D) (actorId : Nat)
    (isPrivileged : Bool) (now : Nat) : Except CaseError (Case D) :=
  if stepNumber < 1 ∨ 7 < stepNumber then .error (.badRequest "Invalid step")
  else if c.workflowStatus = "CM" ∧ isPrivileged = false ∧ ¬ assignedManagerMatches c actorId then
    .error (.forbidden "Only the assigned Case Manager may edit while case is in CM stage")
  else if c.fullyLocked = true ∧ isPrivileged = false then
    .error (.forbidden "Case is fully locked and cannot be modified")
  else
    let st1 := markSubmitted c.status stepNumber actorId now
    let c1 : Case D :=
      { c with stepData := c.stepData.set stepNumber (some data), status := st1 }
    if stepNumber = 7 then
      let missingUser1 := requiredUser1.filter fun n => !(stepSubmittedIn st1 n)
      let missingUser2 := requiredUser2.filter fun n => !(stepSubmittedIn st1 n)
      if c1.invitedUser = none then
        .error (.badRequest "Cannot submit step 7: invited user not attached to case.")
      else if missingUser1 ≠ [] ∨ missingUser2 ≠ [] then
        .error (.badRequest (step7MissingMessage missingUser1 missingUser2))
      else
        .ok { c1 with fullyLocked := true, fullyLockedBy := some actorId,
                      fullyLockedAt := some now,
                      status := lockAllSteps st1 actorId now }
    else .ok c1

/-- Mirrors `unlockCase(caseId, actorId)` (lines 224-258): requires the
case to be fully locked or step 7 to show submitted, then clears the
case-wide lock, every per-step lock (with unlock audit), and the lock
flags of both pre-questionnaires when present. -/
def unlockCase (c : Case D) (actorId now : Nat) : Except CaseError (Case D) :=
  let step7Status := ensuredStatus c.status 7
  if c.fullyLocked = false ∧ ¬ (step7Status.submitted = true ∨ step7Status.submittedAt ≠ none) then
    .error (.badRequest "Case is not fully locked nor locked by step 7 submission")
  else
    .ok { c with
      fullyLocked := false, fullyLockedBy := none, fullyLockedAt := none,
      status := c.status.map fun o => some (unlockMark (o.getD defaultStepStatus) actorId now),
      preQuestionnaireUser1 := c.preQuestionnaireUser1.map fun p =>
        { p with locked := false, lockedBy := none, lockedAt := none },
      preQuestionnaireUser2 := c.preQuestionnaireUser2.map fun p =>
        { p with locked := false, lockedBy := none, lockedAt := none } }

/-- Submission flag of an optional pre-questionnaire record. -/
def pqSubmitted (p : Option PreQuestionnaire) : Bool :=
  match p with
  | some q => q.submitted
  | none => false

/-- Selected lawyer of an optional pre-questionnaire record. -/
def pqSelectedLawyer (p : Option PreQuestionnaire) : Option Nat :=
  p.bind PreQuestionnaire.selectedLawyer

/-- Mirrors `submitPreQuestionnaire(caseId, actorId, answers)` (lines
266-402): only in LAWYER state, only by owner or invited user; writes
answers with submission audit into that party record (materializing it
if absent) and advances the workflow to CM once both parties have
submitted. -/
def submitPreQuestionnaire (c : Case D) (actorId : Nat) (answers : List String)
    (now : Nat) : Except CaseError (Case D) :=
  if c.workflowStatus ≠ "LAWYER" then
    .error (.forbidden "Pre-questionnaire cannot be submitted: case not in LAWYER Selection state")
  else if ¬ (c.owner = actorId) ∧ ¬ (c.invitedUser = some actorId) then
    .error (.forbidden "Actor not part of this case")
  else
    let p1 : PreQuestionnaire :=
      { (c.preQuestionnaireUser1.getD makeEmptyPreQuestionnaire) with
        answers := answers, submitted := true,
        submittedBy := some actorId, submittedAt := some now }
    let p2 : PreQuestionnaire :=
      { (c.preQuestionnaireUser2.getD makeEmptyPreQuestionnaire) with
        answers := answers, submitted := true,
        submittedBy := some actorId, submittedAt := some now }
    let c1 : Case D :=
      if c.owner = actorId then { c with preQuestionnaireUser1 := some p1 }
      else { c with preQuestionnaireUser2 := some p2 }
    if pqSubmitted c1.preQuestionnaireUser1 = true ∧ pqSubmitted c1.preQuestionnaireUser2 = true then
      .ok { c1 with workflowStatus := "CM" }
    else .ok c1

/-- Mirrors `selectLawyer(caseId, actorId, lawyerId, force, message)`
(lines 406-601).  `lawyers` is the set of ids present in the lawyer
directory (the `lawyerModel.findById` lookup). -/
def selectLawyer (c : Case D) (actorId lawyerId : Nat) (force : Bool)
    (lawyers : List Nat) (now : Nat) : Except CaseError (Case D) :=
  if c.fullyLocked = false ∨ areAllStepsSubmitted c = false then
    .error (.badRequest "Lawyer selection is allowed only after all steps are submitted and the case is fully locked")
  else if ¬ (c.owner = actorId) ∧ ¬ (c.invitedUser = some actorId) then
    .error (.forbidden "Actor not part of this case")
  else if pqSubmitted c.preQuestionnaireUser1 = false ∨ pqSubmitted c.preQuestionnaireUser2 = false then
    .error (.badRequest "Both parties must submit their pre-questionnaires before selecting lawyers")
  else if ¬ lawyerId ∈ lawyers then
    .error (.notFound "Lawyer not found")
  else
    let sel1 : PreQuestionnaire :=
      { (c.preQuestionnaireUser1.getD makeEmptyPreQuestionnaire) with
        selectedLawyer := some lawyerId, selectedAt := some now }
    let sel2 : PreQuestionnaire :=
      { (c.preQuestionnaireUser2.getD makeEmptyPreQuestionnaire) with
        selectedLawyer := some lawyerId, selectedAt := some now }
    if c.owner = actorId then
      if pqSelectedLawyer c.preQuestionnaireUser2 = some lawyerId ∧ force = false then
        .error (.badRequest "This lawyer has already been chosen by the other party")
      else
        .ok { c with preQuestionnaireUser1 := some sel1 }
    else
      if pqSelectedLawyer c.preQuestionnaireUser1 = some lawyerId ∧ force = false then
        .error (.badRequest "This lawyer has already been chosen by the other party")
      else
        .ok { c with preQuestionnaireUser2 := some sel2 }

/-- The `ensureApprovalObj` read: the approval record or the empty one
it would materialize. -/
def approvalOf (c : Case D) : Approval :=
  c.approval.getD defaultApproval

/-- The approval quorum tested after user and manager approvals:
`user1Approved && user2Approved && caseManagerApproved`. -/
def quorum (a : Approval) : Bool :=
  a.user1Approved && a.user2Approved && a.caseManagerApproved

/-- Mirrors `approveCaseByUser(caseId, actorId)` (lines 636-662):
requires the case fully locked and all steps submitted, the actor to be
a party; sets that party approval flag, then fires the quorum gate. -/
def approveCaseByUser (c : Case D) (actorId now : Nat) : Except CaseError (Case D) :=
  if c.fullyLocked = false ∨ areAllStepsSubmitted c = false then
    .error (.badRequest "Case must be fully locked and completed before approval")
  else if ¬ (c.owner = actorId) ∧ ¬ (c.invitedUser = some actorId) then
    .error (.forbidden "Actor not part of this case")
  else
    let a : Approval :=
      if c.owner = actorId then
        { approvalOf c with user1Approved := true, user1ApprovedAt := some now }
      else
        { approvalOf c with user2Approved := true, user2ApprovedAt := some now }
    let c1 : Case D := { c with approval := some a }
    if quorum a = true then
      .ok { c1 with workflowStatus := "LAWYER", fullyLocked := true }
    else .ok c1

/-- Mirrors `approveCaseByLawyer(caseId, lawyerId)` (lines 663-675):
the lawyer must be selected by one of the parties; sets the lawyer
approval and records the approved lawyer.  No lock or step precondition
is checked, and the quorum gate is not evaluated here. -/
def approveCaseByLawyer (c : Case D) (lawyerId now : Nat) : Except CaseError (Case D) :=
  if ¬ (pqSelectedLawyer c.preQuestionnaireUser1 = some lawyerId ∨
        pqSelectedLawyer c.preQuestionnaireUser2 = some lawyerId) then
    .error (.forbidden "Lawyer not selected for this case")
  else
    let a : Approval :=
      { approvalOf c with lawyerApproved := true, lawyerApprovedAt := some now,
                          approvedLawyer := some lawyerId }
    .ok { c with approval := some a }

/-- Mirrors `approveCaseByManager(caseId, actorId)` (lines 676-692):
sets the case-manager approval (no precondition beyond case existence)
and then fires the quorum gate. -/
def approveCaseByManager (c : Case D) (actorId now : Nat) : Except CaseError (Case D) :=
  let a : Approval :=
    { approvalOf c with caseManagerApproved := true,
                        caseManagerApprovedAt := some now, approvedBy := some actorId }
  let c1 : Case D := { c with approval := some a }
  if quorum a = true then
    .ok { c1 with workflowStatus := "LAWYER", fullyLocked := true }
  else .ok c1

/-- Mirrors `assignCaseManager` (lines 693-732): sets the assigned case
manager and forces the CM workflow status. -/
def assignCaseManager (c : Case D) (managerId : Nat) : Case D :=
  { c with assignedCaseManager := some managerId, workflowStatus := "CM" }

/-- ASCII uppercase of a string, character by character: the
`(status || '').toUpperCase()` normalization of `changeWorkflowStatus`. -/
def upperString (s : String) : String :=
  ⟨s.data.map Char.toUpper⟩

/-- Resetting a pre-questionnaire submission, as done by the PAID branch
of `changeWorkflowStatus`. -/
def clearPqSubmission (p : PreQuestionnaire) : PreQuestionnaire :=
  { p with submitted := false, submittedBy := none, submittedAt := none }

/-- Mirrors `changeWorkflowStatus(caseId, status, actorId)` (lines
733-776): uppercases the requested status, rejects anything outside
CM/PAID/LAWYER, and applies the per-status effect. -/
def changeWorkflowStatus (c : Case D) (status : String) (actorId now : Nat) :
    Except CaseError (Case D) :=
  let normalized := upperString status
  if ¬ normalized ∈ ["CM", "PAID", "LAWYER"] then .error (.badRequest "Invalid status")
  else if normalized = "CM" then
    let assigned : Option Nat :=
      match c.assignedCaseManager with
      | some m => some m
      | none => some actorId
    .ok { c with workflowStatus := "CM", assignedCaseManager := assigned }
  else if normalized = "PAID" then
    .ok { c with
          workflowStatus := "PAID",
          fullyLocked := false, fullyLockedBy := none, fullyLockedAt := none,
          preQuestionnaireUser1 := c.preQuestionnaireUser1.map clearPqSubmission,
          preQuestionnaireUser2 := c.preQuestionnaireUser2.map clearPqSubmission,
          status := c.status.map fun o => some (unlockMark (o.getD defaultStepStatus) actorId now) }
  else
    .ok { c with
          workflowStatus := "LAWYER",
          fullyLocked := true, fullyLockedBy := some actorId, fullyLockedAt := some now }

/-- The states of the case document reachable through the workflow
engine, starting from `create` and applying any succeeding sequence of
the mutating service operations. -/
inductive Reachable : Case D → Prop where
  | created (ownerId : Nat) (title : String) : Reachable (createCase ownerId title)
  | attach {c : Case D} (userId : Nat) :
      Reachable c → Reachable (attachInvitedUser c userId)
  | stepUpdate {c c' : Case D} (n : Nat) (d : D) (a : Nat) (p : Bool) (t : Nat) :
      Reachable c → updateStep c n d a p t = .ok c' → Reachable c'
  | unlock {c c' : Case D} (a t : Nat) :
      Reachable c → unlockCase c a t = .ok c' → Reachable c'
  | preQ {c c' : Case D} (a : Nat) (ans : List String) (t : Nat) :
      Reachable c → submitPreQuestionnaire c a ans t = .ok c' → Reachable c'
  | lawyerSel {c c' : Case D} (a l : Nat) (f : Bool) (ls : List Nat) (t : Nat) :
      Reachable c → selectLawyer c a l f ls t = .ok c' → Reachable c'
  | approveUser {c c' : Case D} (a t : Nat) :
      Reachable c → approveCaseByUser c a t = .ok c' → Reachable c'
  | approveLawyer {c c' : Case D} (l t : Nat) :
      Reachable c → approveCaseByLawyer c l t = .ok c' → Reachable c'
  | approveManager {c c' : Case D} (a t : Nat) :
      Reachable c → approveCaseByManager c a t = .ok c' → Reachable c'
  | assignCm {c : Case D} (m : Nat) :
      Reachable c → Reachable (assignCaseManager c m)
  | changeStatus {c c' : Case D} (s : String) (a t : Nat) :
      Reachable c → changeWorkflowStatus c s a t = .ok c' → Reachable c'

/-- The owner-side missing list computed by the step-7 cascade: the
required owner steps not submitted after step 7 itself has just been
marked submitted. -/
def missingOwnerSteps (c : Case D) (actorId now : Nat) : List Nat :=
  requiredUser1.filter fun n => !(stepSubmittedIn (markSubmitted c.status 7 actorId now) n)

/-- The invited-side missing list computed by the step-7 cascade. -/
def missingInvitedSteps (c : Case D) (actorId now : Nat) : List Nat :=
  requiredUser2.filter fun n => !(stepSubmittedIn (markSubmitted c.status 7 actorId now) n)

/-- Case-wide lock coherence: a fully locked case has all seven step
statuses present and locked. -/
def lockInvariant (c : Case D) : Prop :=
  c.fullyLocked = true → ∀ n, 1 ≤ n → n ≤ 7 → stepLockedIn c.status n = true

section Lemmas

theorem range_seven_eq : List.range' 1 7 = [1, 2, 3, 4, 5, 6, 7] := rfl

theorem areAllStepsSubmitted_iff (c : Case D) :
    areAllStepsSubmitted c = true ↔
      ∀ n, n ∈ [1, 2, 3, 4, 5, 6, 7] → stepSubmittedIn c.status n = true := by
  unfold areAllStepsSubmitted
  rw [range_seven_eq, List.all_eq_true]

theorem get?_markSubmitted_other (st : StepVec (Option StepStatus)) (m a t n : Nat)
    (hne : n ≠ m) : (markSubmitted st m a t).get? n = st.get? n := by
  unfold markSubmitted StepVec.set
  rcases m with _ | _ | _ | _ | _ | _ | _ | _ | m <;>
    rcases n with _ | _ | _ | _ | _ | _ | _ | _ | n <;>
    simp_all [StepVec.get?]

theorem stepSubmittedIn_markSubmitted_self (st : StepVec (Option StepStatus)) (m a t : Nat)
    (h1 : 1 ≤ m) (h2 : m ≤ 7) :
    stepSubmittedIn (markSubmitted st m a t) m = true := by
  interval_cases m <;> rfl

theorem stepSubmittedIn_markSubmitted_other (st : StepVec (Option StepStatus)) (m a t n : Nat)
    (hne : n ≠ m) :
    stepSubmittedIn (markSubmitted st m a t) n = stepSubmittedIn st n := by
  unfold stepSubmittedIn
  rw [get?_markSubmitted_other st m a t n hne]

theorem get?_lockAllSteps (st : StepVec (Option StepStatus)) (a t n : Nat)
    (h1 : 1 ≤ n) (h2 : n ≤ 7) :
    ((lockAllSteps st a t).get? n).join =
      some (lockMark (((st.get? n).join).getD defaultStepStatus) a t) := by
  interval_cases n <;> rfl

theorem missing_empty (c : Case D) (actorId now : Nat)
    (hsub : ∀ n, n ∈ [1, 2, 3, 4, 5, 6] → stepSubmittedIn c.status n = true) :
    missingOwnerSteps c actorId now = [] ∧ missingInvitedSteps c actorId now = [] := by
  have h7 := stepSubmittedIn_markSubmitted_self c.status 7 actorId now (by omega) (by omega)
  have ho : ∀ n, n ∈ [1, 2, 3, 4, 5, 6] →
      stepSubmittedIn (markSubmitted c.status 7 actorId now) n = true := by
    intro n hn
    have hne : n ≠ 7 := by
      intro h
      subst h
      simp at hn
    rw [stepSubmittedIn_markSubmitted_other c.status 7 actorId now n hne]
    exact hsub n hn
  have h1 := ho 1 (by simp)
  have h2 := ho 2 (by simp)
  have h3 := ho 3 (by simp)
  have h4 := ho 4 (by simp)
  have h5 := ho 5 (by simp)
  have h6 := ho 6 (by simp)
  constructor <;>
    simp [missingOwnerSteps, missingInvitedSteps, requiredUser1, requiredUser2,
      List.filter, h1, h2, h3, h4, h5, h6, h7]

theorem locked_submitMark_of_locked (o : Option StepStatus) (a t : Nat)
    (h : (match o with | some s => s.locked | none => false) = true) :
    (submitMark (o.getD defaultStepStatus) a t).locked = true := by
  cases o with
  | some s => simpa [submitMark] using h
  | none => simp at h

theorem stepLockedIn_markSubmitted_self (st : StepVec (Option StepStatus)) (m a t : Nat)
    (h1 : 1 ≤ m) (h2 : m ≤ 7) (h : stepLockedIn st m = true) :
    stepLockedIn (markSubmitted st m a t) m = true := by
  interval_cases m <;> exact locked_submitMark_of_locked _ a t h

theorem stepLockedIn_lockAllSteps (st : StepVec (Option StepStatus)) (a t n : Nat)
    (h1 : 1 ≤ n) (h2 : n ≤ 7) :
    stepLockedIn (lockAllSteps st a t) n = true := by
  interval_cases n <;> rfl

theorem stepLockedIn_markSubmitted_other (st : StepVec (Option StepStatus)) (m a t n : Nat)
    (hne : n ≠ m) :
    stepLockedIn (markSubmitted st m a t) n = stepLockedIn st n := by
  unfold stepLockedIn
  rw [get?_markSubmitted_other st m a t n hne]

theorem get?_unlockAll (st : StepVec (Option StepStatus)) (a t n : Nat)
    (h1 : 1 ≤ n) (h2 : n ≤ 7) :
    (((st.map fun o => some (unlockMark (o.getD defaultStepStatus) a t)).get? n).join) =
      some (unlockMark (((st.get? n).join).getD defaultStepStatus) a t) := by
  interval_cases n <;> rfl

theorem stepSubmittedIn_unlockAll (st : StepVec (Option StepStatus)) (a t n : Nat) :
    stepSubmittedIn (st.map fun o => some (unlockMark (o.getD defaultStepStatus) a t)) n =
      stepSubmittedIn st n := by
  obtain ⟨o1, o2, o3, o4, o5, o6, o7⟩ := st
  rcases n with _ | _ | _ | _ | _ | _ | _ | _ | n
  · rfl
  · cases o1 <;> rfl
  · cases o2 <;> rfl
  · cases o3 <;> rfl
  · cases o4 <;> rfl
  · cases o5 <;> rfl
  · cases o6 <;> rfl
  · cases o7 <;> rfl
  · rfl

theorem stepLockedIn_unlockAll (st : StepVec (Option StepStatus)) (a t n : Nat) :
    stepLockedIn (st.map fun o => some (unlockMark (o.getD defaultStepStatus) a t)) n = false := by
  rcases n with _ | _ | _ | _ | _ | _ | _ | _ | n <;> rfl

end Lemmas

section Preservation

theorem lockInvariant_updateStep (c c' : Case D) (n : Nat) (d : D) (a : Nat) (p : Bool) (t : Nat)
    (hinv : lockInvariant c) (h : updateStep c n d a p t = .ok c') : lockInvariant c' := by
  unfold updateStep at h
  split_ifs at h with h1 h2 h3 h4
  · -- step-7 branch: the only success is the full-lock cascade
    simp only [] at h
    split_ifs at h with g1 g2
    · injection h with h
      subst h
      intro _ m hm1 hm2
      exact stepLockedIn_lockAllSteps _ a t m hm1 hm2
  · -- any other step: status only gains a submission mark
    simp only [] at h
    injection h with h
    subst h
    intro hfl m hm1 hm2
    have hc : c.fullyLocked = true := hfl
    by_cases hnm : m = n
    · subst hnm
      have hb : 1 ≤ m ∧ m ≤ 7 := by push_neg at h1; omega
      exact stepLockedIn_markSubmitted_self c.status m a t hb.1 hb.2 (hinv hc m hb.1 hb.2)
    · rw [stepLockedIn_markSubmitted_other c.status n a t m hnm]
      exact hinv hc m hm1 hm2

theorem lockInvariant_unlockCase (c c' : Case D) (a t : Nat)
    (h : unlockCase c a t = .ok c') : lockInvariant c' := by
  unfold unlockCase at h
  simp only [] at h
  split_ifs at h with h1
  injection h with h
  subst h
  intro hfl
  exact Bool.noConfusion hfl

theorem lockInvariant_submitPreQuestionnaire (c c' : Case D) (a : Nat) (ans : List String) (t : Nat)
    (hinv : lockInvariant c) (h : submitPreQuestionnaire c a ans t = .ok c') : lockInvariant c' := by
  unfold submitPreQuestionnaire at h
  split_ifs at h with h1 h2 h3
  all_goals simp only [] at h
  all_goals split_ifs at h with h4
  all_goals injection h with h
  all_goals subst h
  all_goals intro hfl m hm1 hm2
  all_goals exact hinv hfl m hm1 hm2

theorem lockInvariant_selectLawyer (c c' : Case D) (a l : Nat) (f : Bool) (ls : List Nat) (t : Nat)
    (hinv : lockInvariant c) (h : selectLawyer c a l f ls t = .ok c') : lockInvariant c' := by
  unfold selectLawyer at h
  simp only [] at h
  split_ifs at h
  all_goals injection h with h
  all_goals subst h
  all_goals intro hfl m hm1 hm2
  all_goals exact hinv hfl m hm1 hm2

theorem lockInvariant_approveCaseByUser (c c' : Case D) (a t : Nat)
    (hinv : lockInvariant c) (h : approveCaseByUser c a t = .ok c') : lockInvariant c' := by
  unfold approveCaseByUser at h
  split_ifs at h with h1
  all_goals simp only [] at h
  all_goals split_ifs at h
  all_goals injection h with h
  all_goals subst h
  all_goals intro hfl m hm1 hm2
  all_goals refine hinv ?_ m hm1 hm2
  all_goals cases hb : c.fullyLocked
  all_goals try exact absurd (Or.inl hb) h1
  all_goals rfl

theorem lockInvariant_approveCaseByLawyer (c c' : Case D) (l t : Nat)
    (hinv : lockInvariant c) (h : approveCaseByLawyer c l t = .ok c') : lockInvariant c' := by
  unfold approveCaseByLawyer at h
  simp only [] at h
  split_ifs at h
  injection h with h
  subst h
  intro hfl m hm1 hm2
  exact hinv hfl m hm1 hm2

theorem lockInvariant_attachInvitedUser (c : Case D) (u : Nat)
    (hinv : lockInvariant c) : lockInvariant (attachInvitedUser c u) := by
  intro hfl m hm1 hm2
  exact hinv hfl m hm1 hm2

theorem lockInvariant_assignCaseManager (c : Case D) (m0 : Nat)
    (hinv : lockInvariant c) : lockInvariant (assignCaseManager c m0) := by
  intro hfl m hm1 hm2
  exact hinv hfl m hm1 hm2

theorem lockInvariant_changeWorkflowStatus (c c' : Case D) (s : String) (a t : Nat)
    (hs : upperString s ≠ "LAWYER")
    (hinv : lockInvariant c) (h : changeWorkflowStatus c s a t = .ok c') : lockInvariant c' := by
  unfold changeWorkflowStatus at h
  simp only [] at h
  split_ifs at h with h1 h2 h3
  · -- CM branch: locks untouched
    injection h with h
    subst h
    intro hfl m hm1 hm2
    exact hinv hfl m hm1 hm2
  · -- PAID branch: fullyLocked cleared, invariant vacuous
    injection h with h
    subst h
    intro hfl
    exact Bool.noConfusion hfl
  · -- residual branch is the LAWYER assignment, excluded by hs
    exfalso
    apply hs
    have hmem : upperString s ∈ ["CM", "PAID", "LAWYER"] := h1
    simp only [List.mem_cons, List.mem_singleton, List.not_mem_nil, or_false] at hmem
    rcases hmem with hx | hx | hx
    · exact absurd hx h2
    · exact absurd hx h3
    · exact hx

end Preservation

section Claims

/-- A reachable case violating the full-lock coherence property: a fresh
DRAFT case pushed to LAWYER by the manual workflow override, which sets
`fullyLocked` without locking any step. -/
def lockBreakCase : Case Nat :=
  (changeWorkflowStatus (createCase 1 "t") "LAWYER" 5 19).toOption.getD (createCase 1 "t")

/-- Claim C1, counterexample: the claimed invariant (every reachable
case with `fullyLocked = true` has all seven steps locked) fails on the
code.  The LAWYER branch of `changeWorkflowStatus` sets
`fullyLocked := true` without locking any step, so a freshly created
case moved to LAWYER by the privileged override is reachable, fully
locked, and has step 1 unlocked. -/
theorem C1_counterexample :
    Reachable lockBreakCase ∧ lockBreakCase.fullyLocked = true ∧
    stepLockedIn lockBreakCase.status 1 = false := by
  refine ⟨?_, rfl, rfl⟩
  have h : changeWorkflowStatus (createCase 1 "t" : Case Nat) "LAWYER" 5 19 = .ok lockBreakCase := rfl
  exact Reachable.changeStatus "LAWYER" 5 19 (Reachable.created 1 "t") h

/-- Claim C1, amended: the full-lock coherence property
`fullyLocked = true → all seven steps locked` is established by the
step-7 cascade and preserved by `updateStep`, `unlockCase`,
`submitPreQuestionnaire`, `selectLawyer`, `approveCaseByUser`,
`approveCaseByLawyer`, `attachInvitedUser`, `assignCaseManager`, and
every `changeWorkflowStatus` call whose normalized status is not
LAWYER.  It is not preserved by the LAWYER workflow override (see the
counterexample) nor by the quorum re-assert inside
`approveCaseByManager`, both of which set `fullyLocked` without
touching the step locks. -/
theorem C1_full_lock_invariant_amended {D : Type} (c c' : Case D) (hinv : lockInvariant c) :
    (∀ n d a p t, updateStep c n d a p t = .ok c' → lockInvariant c') ∧
    (∀ a t, unlockCase c a t = .ok c' → lockInvariant c') ∧
    (∀ a ans t, submitPreQuestionnaire c a ans t = .ok c' → lockInvariant c') ∧
    (∀ a l f ls t, selectLawyer c a l f ls t = .ok c' → lockInvariant c') ∧
    (∀ a t, approveCaseByUser c a t = .ok c' → lockInvariant c') ∧
    (∀ l t, approveCaseByLawyer c l t = .ok c' → lockInvariant c') ∧
    (∀ u, lockInvariant (attachInvitedUser c u)) ∧
    (∀ m, lockInvariant (assignCaseManager c m)) ∧
    (∀ s a t, upperString s ≠ "LAWYER" → changeWorkflowStatus c s a t = .ok c' → lockInvariant c') :=
  ⟨fun n d a p t h => lockInvariant_updateStep c c' n d a p t hinv h,
   fun a t h => lockInvariant_unlockCase c c' a t h,
   fun a ans t h => lockInvariant_submitPreQuestionnaire c c' a ans t hinv h,
   fun a l f ls t h => lockInvariant_selectLawyer c c' a l f ls t hinv h,
   fun a t h => lockInvariant_approveCaseByUser c c' a t hinv h,
   fun l t h => lockInvariant_approveCaseByLawyer c c' l t hinv h,
   fun u => lockInvariant_attachInvitedUser c u hinv,
   fun m => lockInvariant_assignCaseManager c m hinv,
   fun s a t hs h => lockInvariant_changeWorkflowStatus c c' s a t hs hinv h⟩

/-- Witness for C1 amended: the preservation theorem applied to a fresh
case and the attach operation. -/
theorem C1_full_lock_invariant_amended_witness :
    lockInvariant (attachInvitedUser (createCase 1 "t" : Case Nat) 2) :=
  ((C1_full_lock_invariant_amended (createCase 1 "t" : Case Nat) (createCase 1 "t")
      (fun hfl => Bool.noConfusion hfl)).2.2.2.2.2.2.1) 2

/-- Claim C2 (confirmed): when the CM-stage and full-lock guards pass
but the invited user is missing or some required step is unsubmitted,
submitting step 7 throws a BadRequest before the save — the persisted
case is the unchanged input (so `fullyLocked` is not set) — and when
the invited user is attached the message enumerates the missing steps
per party exactly as `step7MissingMessage` builds it. -/
theorem C2_step7_precondition_failure {D : Type} (c : Case D) (data : D) (actorId : Nat)
    (isPrivileged : Bool) (now : Nat)
    (hcm : ¬ (c.workflowStatus = "CM" ∧ isPrivileged = false ∧ ¬ assignedManagerMatches c actorId))
    (hlock : ¬ (c.fullyLocked = true ∧ isPrivileged = false))
    (hpre : c.invitedUser = none ∨ missingOwnerSteps c actorId now ≠ [] ∨
            missingInvitedSteps c actorId now ≠ []) :
    updateStep c 7 data actorId isPrivileged now =
      .error (if c.invitedUser = none then
          CaseError.badRequest "Cannot submit step 7: invited user not attached to case."
        else
          CaseError.badRequest (step7MissingMessage (missingOwnerSteps c actorId now)
            (missingInvitedSteps c actorId now))) := by
  unfold updateStep
  rw [if_neg (by omega : ¬ ((7 : Nat) < 1 ∨ 7 < 7))]
  rw [if_neg hcm, if_neg hlock, if_pos rfl]
  by_cases hinv : c.invitedUser = none
  · simp only [hinv, if_pos, ite_true]
  · rcases hpre with h | h | h
    · exact absurd h hinv
    · simp only [hinv, if_neg, ite_false]
      exact if_pos (Or.inl h)
    · simp only [hinv, if_neg, ite_false]
      exact if_pos (Or.inr h)

set_option maxRecDepth 4000 in
/-- Witness for C2: a fresh case with the invited user attached but no
step submitted is rejected with the enumerating message. -/
theorem C2_step7_precondition_failure_witness :
    updateStep (attachInvitedUser (createCase 1 "t" : Case Nat) 2) 7 0 1 false 0 =
      .error (.badRequest ("Cannot submit step 7. Please ensure all required steps are saved before final submission. owner missing steps: 1, 2, 5, 6; invited user missing steps: 3, 4")) := by
  have h := C2_step7_precondition_failure (attachInvitedUser (createCase 1 "t" : Case Nat) 2)
      (0 : Nat) 1 false 0 (by decide) (by decide) (Or.inr (Or.inl (by decide)))
  exact h.trans (congrArg Except.error (by decide))

/-- Claim C3 (confirmed): when the guards pass, the invited user is
attached and steps 1-6 are all submitted, submitting step 7 succeeds
and sets `fullyLocked` with actor/time audit, and every step status
becomes the locked version (locked by the actor at `now`) of whatever
status the step had after the step-7 submission mark — an unconditional
re-lock of all seven that also covers already-locked steps. -/
theorem C3_step7_success_locks_all {D : Type} (c : Case D) (data : D) (actorId : Nat)
    (isPrivileged : Bool) (now u : Nat)
    (hcm : ¬ (c.workflowStatus = "CM" ∧ isPrivileged = false ∧ ¬ assignedManagerMatches c actorId))
    (hlock : ¬ (c.fullyLocked = true ∧ isPrivileged = false))
    (hinv : c.invitedUser = some u)
    (hsub : ∀ n, n ∈ [1, 2, 3, 4, 5, 6] → stepSubmittedIn c.status n = true) :
    ∃ c', updateStep c 7 data actorId isPrivileged now = .ok c' ∧
      c'.fullyLocked = true ∧ c'.fullyLockedBy = some actorId ∧ c'.fullyLockedAt = some now ∧
      ∀ n, 1 ≤ n → n ≤ 7 → ((c'.status.get? n).join) =
        some (lockMark ((((markSubmitted c.status 7 actorId now).get? n).join).getD
          defaultStepStatus) actorId now) := by
  obtain ⟨hm1, hm2⟩ := missing_empty c actorId now hsub
  unfold updateStep
  rw [if_neg (by omega : ¬ ((7 : Nat) < 1 ∨ 7 < 7))]
  rw [if_neg hcm, if_neg hlock, if_pos rfl]
  rw [if_neg (by simp [hinv])]
  rw [if_neg (by
    push_neg
    exact ⟨by simpa [missingOwnerSteps] using hm1, by simpa [missingInvitedSteps] using hm2⟩)]
  refine ⟨_, rfl, rfl, rfl, rfl, ?_⟩
  intro n hn1 hn2
  exact get?_lockAllSteps (markSubmitted c.status 7 actorId now) actorId now n hn1 hn2

/-- Concrete input for the C3 witness: invited user attached and steps
1-6 submitted. -/
def c3Base : Case Nat :=
  { createCase 1 "w" with
    invitedUser := some 2,
    status :=
      ⟨some { defaultStepStatus with submitted := true },
       some { defaultStepStatus with submitted := true },
       some { defaultStepStatus with submitted := true },
       some { defaultStepStatus with submitted := true },
       some { defaultStepStatus with submitted := true },
       some { defaultStepStatus with submitted := true },
       none⟩ }

/-- Witness for C3: the success theorem applied to `c3Base`. -/
theorem C3_step7_success_locks_all_witness :
    ((updateStep c3Base 7 (0 : Nat) 1 false 9).toOption.map Case.fullyLocked) = some true := by
  obtain ⟨c', h1, h2, _⟩ :=
    C3_step7_success_locks_all c3Base (0 : Nat) 1 false 9 2 (by decide) (by decide) rfl (by decide)
  rw [h1]
  simp [Except.toOption, h2]

/-- Claim C4, counterexample: the claimed shared precondition (case
fully locked with all steps submitted) is enforced only by
`approveCaseByUser`.  `approveCaseByManager` performs no such check: on
a fresh DRAFT case (not fully locked, no step submitted) it succeeds
and sets the manager approval flag. -/
theorem C4_counterexample :
    (createCase 1 "t" : Case Nat).fullyLocked = false ∧
    areAllStepsSubmitted (createCase 1 "t" : Case Nat) = false ∧
    approveCaseByManager (createCase 1 "t" : Case Nat) 50 3 =
      .ok { (createCase 1 "t" : Case Nat) with
            approval := some { defaultApproval with
                               caseManagerApproved := true,
                               caseManagerApprovedAt := some 3, approvedBy := some 50 } } := by
  exact ⟨rfl, rfl, rfl⟩

/-- Claim C4, amended: `approveCaseByUser` requires the case to be
fully locked with all seven steps submitted and fails with the
precondition BadRequest otherwise; `approveCaseByLawyer` checks only
that the lawyer is selected by one of the parties (forbidden
otherwise); `approveCaseByManager` checks nothing beyond case existence
and always sets the manager approval flag with its audit fields. -/
theorem C4_approval_gates_amended {D : Type} (c : Case D) :
    (∀ a t, (c.fullyLocked = false ∨ areAllStepsSubmitted c = false) →
       approveCaseByUser c a t =
         .error (.badRequest "Case must be fully locked and completed before approval")) ∧
    (∀ l t, ¬ (pqSelectedLawyer c.preQuestionnaireUser1 = some l ∨
               pqSelectedLawyer c.preQuestionnaireUser2 = some l) →
       approveCaseByLawyer c l t = .error (.forbidden "Lawyer not selected for this case")) ∧
    (∀ a t, ∃ c', approveCaseByManager c a t = .ok c' ∧
       (approvalOf c').caseManagerApproved = true ∧
       (approvalOf c').caseManagerApprovedAt = some t ∧
       (approvalOf c').approvedBy = some a) := by
  refine ⟨?_, ?_, ?_⟩
  · intro a t hpre
    unfold approveCaseByUser
    rw [if_pos hpre]
  · intro l t hsel
    unfold approveCaseByLawyer
    rw [if_pos hsel]
  · intro a t
    unfold approveCaseByManager
    simp only []
    split_ifs with hq
    · exact ⟨_, rfl, rfl, rfl, rfl⟩
    · exact ⟨_, rfl, rfl, rfl, rfl⟩

/-- Witness for C4 amended: user approval on a fresh case is rejected. -/
theorem C4_approval_gates_amended_witness :
    approveCaseByUser (createCase 1 "t" : Case Nat) 1 2 =
      .error (.badRequest "Case must be fully locked and completed before approval") :=
  (C4_approval_gates_amended (createCase 1 "t" : Case Nat)).1 1 2 (Or.inl rfl)

/-- Claim C5 (confirmed): the quorum gate.  Lawyer approval never
changes the workflow status or the lock.  A user or manager approval
sets exactly that approval flag (so a duplicate approval by the same
party adds nothing) and advances `workflowStatus` to LAWYER with
`fullyLocked` re-asserted exactly when, after the flag is set,
`user1Approved && user2Approved && caseManagerApproved` holds — lawyer
approval is not part of the quorum; otherwise workflow status and lock
are unchanged.  Hence the transition fires exactly at the call that
completes the three distinct approvals, in any order. -/
theorem C5_quorum_gate {D : Type} (c c' : Case D) :
    (∀ l t, approveCaseByLawyer c l t = .ok c' →
       c'.workflowStatus = c.workflowStatus ∧ c'.fullyLocked = c.fullyLocked) ∧
    (∀ a t, approveCaseByUser c a t = .ok c' →
       (quorum (approvalOf c') = true → c'.workflowStatus = "LAWYER" ∧ c'.fullyLocked = true) ∧
       (quorum (approvalOf c') = false →
          c'.workflowStatus = c.workflowStatus ∧ c'.fullyLocked = c.fullyLocked) ∧
       (c.owner = a →
          approvalOf c' = { approvalOf c with user1Approved := true, user1ApprovedAt := some t }) ∧
       (¬ c.owner = a →
          approvalOf c' = { approvalOf c with user2Approved := true, user2ApprovedAt := some t })) ∧
    (∀ a t, approveCaseByManager c a t = .ok c' →
       (quorum (approvalOf c') = true → c'.workflowStatus = "LAWYER" ∧ c'.fullyLocked = true) ∧
       (quorum (approvalOf c') = false →
          c'.workflowStatus = c.workflowStatus ∧ c'.fullyLocked = c.fullyLocked) ∧
       approvalOf c' = { approvalOf c with
                         caseManagerApproved := true,
                         caseManagerApprovedAt := some t, approvedBy := some a }) := by
  refine ⟨?_, ?_, ?_⟩
  · intro l t h
    unfold approveCaseByLawyer at h
    simp only [] at h
    split_ifs at h
    injection h with h
    subst h
    exact ⟨rfl, rfl⟩
  · intro a t h
    unfold approveCaseByUser at h
    split_ifs at h with g1 g2 ho
    · simp only [] at h
      split_ifs at h with hq
      · injection h with h
        subst h
        exact ⟨fun _ => ⟨rfl, rfl⟩, fun hq2 => absurd (hq.symm.trans hq2) Bool.noConfusion,
          fun _ => rfl, fun hno => absurd ho hno⟩
      · injection h with h
        subst h
        exact ⟨fun hq2 => absurd hq2 hq, fun _ => ⟨rfl, rfl⟩,
          fun _ => rfl, fun hno => absurd ho hno⟩
    · simp only [] at h
      split_ifs at h with hq
      · injection h with h
        subst h
        exact ⟨fun _ => ⟨rfl, rfl⟩, fun hq2 => absurd (hq.symm.trans hq2) Bool.noConfusion,
          fun hyes => absurd hyes ho, fun _ => rfl⟩
      · injection h with h
        subst h
        exact ⟨fun hq2 => absurd hq2 hq, fun _ => ⟨rfl, rfl⟩,
          fun hyes => absurd hyes ho, fun _ => rfl⟩
  · intro a t h
    unfold approveCaseByManager at h
    simp only [] at h
    split_ifs at h with hq
    · injection h with h
      subst h
      exact ⟨fun _ => ⟨rfl, rfl⟩, fun hq2 => absurd (hq.symm.trans hq2) Bool.noConfusion, rfl⟩
    · injection h with h
      subst h
      exact ⟨fun hq2 => absurd hq2 hq, fun _ => ⟨rfl, rfl⟩, rfl⟩

/-- Concrete fully locked, fully submitted case for the C5 witness. -/
def c5Base : Case Nat :=
  { createCase 1 "w" with
    invitedUser := some 2, fullyLocked := true,
    status := StepVec.const (some { defaultStepStatus with submitted := true, locked := true }) }

/-- The case after the first user approval of `c5Base`. -/
def c5AfterUser1 : Case Nat :=
  (approveCaseByUser c5Base 1 4).toOption.getD c5Base

/-- Witness for C5: the first user approval alone does not fire the
transition. -/
theorem C5_quorum_gate_witness :
    c5AfterUser1.workflowStatus = "DRAFT" ∧ c5AfterUser1.fullyLocked = true := by
  have h := ((C5_quorum_gate c5Base c5AfterUser1).2.1 1 4 rfl).2.1 (by decide)
  exact ⟨h.1.trans rfl, h.2.trans rfl⟩

/-- Claim C6 (confirmed): lawyer-selection exclusivity.  With the
selection gates satisfied (case fully locked, all steps submitted, both
pre-questionnaires submitted, lawyer in the directory), if one party
has already selected lawyer L, the other party selecting the same L
with `force = false` is rejected with the conflict BadRequest before
any save, while the same call with `force = true` succeeds and leaves
both parties with `selectedLawyer = L`. -/
theorem C6_lawyer_exclusivity {D : Type} (c : Case D) (L : Nat) (lawyers : List Nat) (now : Nat)
    (hlock : c.fullyLocked = true) (hsub : areAllStepsSubmitted c = true)
    (hp1 : pqSubmitted c.preQuestionnaireUser1 = true)
    (hp2 : pqSubmitted c.preQuestionnaireUser2 = true)
    (hL : L ∈ lawyers) :
    (pqSelectedLawyer c.preQuestionnaireUser2 = some L →
       selectLawyer c c.owner L false lawyers now =
         .error (.badRequest "This lawyer has already been chosen by the other party") ∧
       ∃ c', selectLawyer c c.owner L true lawyers now = .ok c' ∧
         pqSelectedLawyer c'.preQuestionnaireUser1 = some L ∧
         pqSelectedLawyer c'.preQuestionnaireUser2 = some L) ∧
    (∀ u, c.invitedUser = some u → ¬ c.owner = u →
       pqSelectedLawyer c.preQuestionnaireUser1 = some L →
       selectLawyer c u L false lawyers now =
         .error (.badRequest "This lawyer has already been chosen by the other party") ∧
       ∃ c', selectLawyer c u L true lawyers now = .ok c' ∧
         pqSelectedLawyer c'.preQuestionnaireUser1 = some L ∧
         pqSelectedLawyer c'.preQuestionnaireUser2 = some L) := by
  constructor
  · intro hsel
    constructor
    · unfold selectLawyer
      simp only []
      rw [if_neg (by simp [hlock, hsub])]
      rw [if_neg (by simp)]
      rw [if_neg (by simp [hp1, hp2])]
      rw [if_neg (not_not_intro hL)]
      rw [if_pos trivial]
      rw [if_pos ⟨hsel, trivial⟩]
    · unfold selectLawyer
      simp only []
      rw [if_neg (by simp [hlock, hsub])]
      rw [if_neg (by simp)]
      rw [if_neg (by simp [hp1, hp2])]
      rw [if_neg (not_not_intro hL)]
      rw [if_pos trivial]
      rw [if_neg (fun hc => Bool.noConfusion hc.2)]
      exact ⟨_, rfl, rfl, hsel⟩
  · intro u hu hne hsel
    constructor
    · unfold selectLawyer
      simp only []
      rw [if_neg (by simp [hlock, hsub])]
      rw [if_neg (by simp [hu])]
      rw [if_neg (by simp [hp1, hp2])]
      rw [if_neg (not_not_intro hL)]
      rw [if_neg hne]
      rw [if_pos ⟨hsel, trivial⟩]
    · unfold selectLawyer
      simp only []
      rw [if_neg (by simp [hlock, hsub])]
      rw [if_neg (by simp [hu])]
      rw [if_neg (by simp [hp1, hp2])]
      rw [if_neg (not_not_intro hL)]
      rw [if_neg hne]
      rw [if_neg (fun hc => Bool.noConfusion hc.2)]
      exact ⟨_, rfl, hsel, rfl⟩

/-- Concrete input for the C6 witness: both pre-questionnaires
submitted, party 2 already selected lawyer 100. -/
def c6Base : Case Nat :=
  { createCase 1 "w" with
    invitedUser := some 2, fullyLocked := true,
    status := StepVec.const (some { defaultStepStatus with submitted := true }),
    preQuestionnaireUser1 := some { makeEmptyPreQuestionnaire with submitted := true },
    preQuestionnaireUser2 := some { makeEmptyPreQuestionnaire with
                                    submitted := true, selectedLawyer := some 100 } }

/-- Witness for C6: the owner selecting the same lawyer without force
is rejected with the conflict error. -/
theorem C6_lawyer_exclusivity_witness :
    selectLawyer c6Base 1 100 false [100] 5 =
      .error (.badRequest "This lawyer has already been chosen by the other party") :=
  ((C6_lawyer_exclusivity c6Base 100 [100] 5 rfl (by decide) rfl rfl (by decide)).1 rfl).1

/-- Claim C7 (confirmed): the PAID override sets `workflowStatus`,
clears the case-wide lock and its audit, turns every step status into
its unlock-marked version (lock flags cleared, unlock audit stamped,
submission fields preserved), resets both pre-questionnaires to
unsubmitted, and leaves the step payloads and every per-step submitted
flag unchanged. -/
theorem C7_paid_reopen {D : Type} (c : Case D) (a t : Nat) (c' : Case D)
    (h : changeWorkflowStatus c "PAID" a t = .ok c') :
    c'.workflowStatus = "PAID" ∧ c'.fullyLocked = false ∧
    c'.fullyLockedBy = none ∧ c'.fullyLockedAt = none ∧
    (∀ n, 1 ≤ n → n ≤ 7 → ((c'.status.get? n).join) =
       some (unlockMark (((c.status.get? n).join).getD defaultStepStatus) a t)) ∧
    pqSubmitted c'.preQuestionnaireUser1 = false ∧
    pqSubmitted c'.preQuestionnaireUser2 = false ∧
    c'.stepData = c.stepData ∧
    (∀ n, stepSubmittedIn c'.status n = stepSubmittedIn c.status n) := by
  unfold changeWorkflowStatus at h
  simp only [] at h
  rw [if_neg (by decide : ¬ ¬ (upperString "PAID") ∈ ["CM", "PAID", "LAWYER"])] at h
  rw [if_neg (by decide : ¬ (upperString "PAID") = "CM")] at h
  rw [if_pos (by decide : (upperString "PAID") = "PAID")] at h
  injection h with h
  subst h
  refine ⟨rfl, rfl, rfl, rfl, ?_, ?_, ?_, rfl, ?_⟩
  · intro n hn1 hn2
    exact get?_unlockAll c.status a t n hn1 hn2
  · cases c.preQuestionnaireUser1 <;> rfl
  · cases c.preQuestionnaireUser2 <;> rfl
  · intro n
    exact stepSubmittedIn_unlockAll c.status a t n

/-- Concrete case for the C7 witness: fully locked with step 1
submitted and locked and a submitted pre-questionnaire. -/
def c7Base : Case Nat :=
  { (createCase 1 "w" : Case Nat) with
    fullyLocked := true, fullyLockedBy := some 1, fullyLockedAt := some 7,
    stepData := (StepVec.const (none : Option Nat)).set 1 (some 42),
    status := (StepVec.const (none : Option StepStatus)).set 1
      (some { defaultStepStatus with submitted := true, locked := true }),
    preQuestionnaireUser1 := some { makeEmptyPreQuestionnaire with submitted := true } }

/-- The case after moving `c7Base` to PAID. -/
def c7AfterPaid : Case Nat :=
  (changeWorkflowStatus c7Base "PAID" 9 4).toOption.getD c7Base

/-- Witness for C7: the PAID reopen clears the lock while step data and
the submitted flag survive. -/
theorem C7_paid_reopen_witness :
    c7AfterPaid.fullyLocked = false ∧ c7AfterPaid.workflowStatus = "PAID" ∧
    c7AfterPaid.stepData = c7Base.stepData ∧
    stepSubmittedIn c7AfterPaid.status 1 = stepSubmittedIn c7Base.status 1 := by
  have h := C7_paid_reopen c7Base 9 4 c7AfterPaid rfl
  exact ⟨h.2.1, h.1, h.2.2.2.2.2.2.2.1, h.2.2.2.2.2.2.2.2 1⟩

/-- A fully locked case sitting in the CM stage with a different
assigned case manager: the owner is a non-privileged party here. -/
def cmStageCase : Case Nat :=
  { (createCase 1 "w" : Case Nat) with
    invitedUser := some 2, fullyLocked := true, workflowStatus := "CM",
    assignedCaseManager := some 99,
    status := StepVec.const (some { defaultStepStatus with submitted := true, locked := true }) }

/-- The CM-stage case after a successful unlock. -/
def cmStageUnlocked : Case Nat :=
  (unlockCase cmStageCase 99 5).toOption.getD cmStageCase

/-- A case force-locked by the LAWYER workflow override with no invited
user and no step submitted. -/
def lawyerForcedCase : Case Nat :=
  (changeWorkflowStatus (createCase 1 "w") "LAWYER" 9 5).toOption.getD (createCase 1 "w")

/-- The force-locked case after a successful unlock. -/
def lawyerForcedUnlocked : Case Nat :=
  (unlockCase lawyerForcedCase 9 6).toOption.getD lawyerForcedCase

/-- Claim C8, counterexample: an `updateStep` immediately after a
successful `unlockCase` can still fail for a non-privileged party.
First, on a case in the CM stage the CM-exclusivity guard rejects the
owner even though every lock was cleared.  Second, on a case that was
force-locked by the LAWYER override, `unlockCase` succeeds but a step-7
submission still fails its own precondition (no invited user). -/
theorem C8_counterexample :
    (unlockCase cmStageCase 99 5 = .ok cmStageUnlocked ∧
     cmStageUnlocked.fullyLocked = false ∧
     updateStep cmStageUnlocked 1 (0 : Nat) 1 false 6 =
       .error (.forbidden "Only the assigned Case Manager may edit while case is in CM stage")) ∧
    (unlockCase lawyerForcedCase 9 6 = .ok lawyerForcedUnlocked ∧
     updateStep lawyerForcedUnlocked 7 (0 : Nat) 1 false 7 =
       .error (.badRequest "Cannot submit step 7: invited user not attached to case.")) := by
  exact ⟨⟨rfl, rfl, rfl⟩, ⟨rfl, rfl⟩⟩

/-- Claim C8, amended: a successful `unlockCase` clears the case-wide
lock with its audit and every per-step lock (no residual lock remains),
and an immediately following `updateStep` by a non-privileged party
succeeds on any step 1..6 provided the case is not in the CM stage; a
following step-7 submission additionally needs its own preconditions
(invited user attached, required steps submitted). -/
theorem C8_unlock_then_update_amended {D : Type} (c : Case D) (a t : Nat) (c' : Case D)
    (h : unlockCase c a t = .ok c') :
    c'.fullyLocked = false ∧ c'.fullyLockedBy = none ∧ c'.fullyLockedAt = none ∧
    (∀ n, stepLockedIn c'.status n = false) ∧
    (c'.workflowStatus ≠ "CM" →
       (∀ n d actor now, 1 ≤ n → n ≤ 6 →
          ∃ c2, updateStep c' n d actor false now = .ok c2) ∧
       (∀ d actor now u, c'.invitedUser = some u →
          (∀ m, m ∈ [1, 2, 3, 4, 5, 6] → stepSubmittedIn c'.status m = true) →
          ∃ c2, updateStep c' 7 d actor false now = .ok c2)) := by
  unfold unlockCase at h
  simp only [] at h
  split_ifs at h
  injection h with h
  subst h
  refine ⟨rfl, rfl, rfl, ?_, ?_⟩
  · intro n
    exact stepLockedIn_unlockAll c.status a t n
  · intro hcm
    constructor
    · intro n d actor now hn1 hn2
      unfold updateStep
      rw [if_neg (by omega)]
      rw [if_neg (fun hcond => hcm hcond.1)]
      rw [if_neg (fun hcond => Bool.noConfusion hcond.1)]
      rw [if_neg (by omega : ¬ n = 7)]
      exact ⟨_, rfl⟩
    · intro d actor now u hu hsub
      obtain ⟨hm1, hm2⟩ := missing_empty _ actor now hsub
      have hu2 : c.invitedUser = some u := hu
      unfold updateStep
      rw [if_neg (by omega : ¬ ((7 : Nat) < 1 ∨ 7 < 7))]
      rw [if_neg (fun hcond => hcm hcond.1)]
      rw [if_neg (fun hcond => Bool.noConfusion hcond.1)]
      rw [if_pos rfl]
      rw [if_neg (by simp [hu2])]
      rw [if_neg (by
        push_neg
        exact ⟨by simpa [missingOwnerSteps] using hm1, by simpa [missingInvitedSteps] using hm2⟩)]
      exact ⟨_, rfl⟩

/-- Concrete fully locked case for the C8 witness, in the DRAFT stage. -/
def c8Base : Case Nat :=
  { (createCase 1 "w" : Case Nat) with
    invitedUser := some 2, fullyLocked := true,
    status := StepVec.const (some { defaultStepStatus with submitted := true, locked := true }) }

/-- The C8 witness case after unlocking. -/
def c8Unlocked : Case Nat :=
  (unlockCase c8Base 9 5).toOption.getD c8Base

/-- Witness for C8 amended: after the unlock, step 3 carries no lock
and an owner write to it succeeds. -/
theorem C8_unlock_then_update_amended_witness :
    stepLockedIn c8Unlocked.status 3 = false ∧
    ((updateStep c8Unlocked 3 (0 : Nat) 1 false 6).toOption.isSome = true) := by
  have h := C8_unlock_then_update_amended c8Base 9 5 c8Unlocked rfl
  refine ⟨h.2.2.2.1 3, ?_⟩
  obtain ⟨c2, hc2⟩ := (h.2.2.2.2 (by decide)).1 3 (0 : Nat) 1 6 (by decide) (by decide)
  rw [hc2]
  rfl

/-- Claim C9 (confirmed): `submitPreQuestionnaire` rejects any case not
in the LAWYER stage and any actor who is neither the owner nor the
invited user; for the owner (respectively the invited user) it writes
the answers with submission audit into that party record, materializing
it from the empty record when absent, leaves the other record
untouched, and advances the workflow status to CM exactly when the
other party record was already submitted. -/
theorem C9_preQuestionnaire_gate {D : Type} (c : Case D) (actor : Nat)
    (answers : List String) (now : Nat) :
    (c.workflowStatus ≠ "LAWYER" →
       submitPreQuestionnaire c actor answers now =
         .error (.forbidden "Pre-questionnaire cannot be submitted: case not in LAWYER Selection state")) ∧
    (c.workflowStatus = "LAWYER" → ¬ c.owner = actor → ¬ c.invitedUser = some actor →
       submitPreQuestionnaire c actor answers now =
         .error (.forbidden "Actor not part of this case")) ∧
    (c.workflowStatus = "LAWYER" → c.owner = actor →
       ∃ c', submitPreQuestionnaire c actor answers now = .ok c' ∧
         c'.preQuestionnaireUser1 = some
           { (c.preQuestionnaireUser1.getD makeEmptyPreQuestionnaire) with
             answers := answers, submitted := true,
             submittedBy := some actor, submittedAt := some now } ∧
         c'.preQuestionnaireUser2 = c.preQuestionnaireUser2 ∧
         c'.workflowStatus =
           (if pqSubmitted c.preQuestionnaireUser2 = true then "CM" else "LAWYER")) ∧
    (c.workflowStatus = "LAWYER" → ¬ c.owner = actor → c.invitedUser = some actor →
       ∃ c', submitPreQuestionnaire c actor answers now = .ok c' ∧
         c'.preQuestionnaireUser2 = some
           { (c.preQuestionnaireUser2.getD makeEmptyPreQuestionnaire) with
             answers := answers, submitted := true,
             submittedBy := some actor, submittedAt := some now } ∧
         c'.preQuestionnaireUser1 = c.preQuestionnaireUser1 ∧
         c'.workflowStatus =
           (if pqSubmitted c.preQuestionnaireUser1 = true then "CM" else "LAWYER")) := by
  refine ⟨?_, ?_, ?_, ?_⟩
  · intro hwf
    unfold submitPreQuestionnaire
    rw [if_pos hwf]
  · intro hwf ho hi
    unfold submitPreQuestionnaire
    rw [if_neg (not_not_intro hwf)]
    rw [if_pos ⟨ho, hi⟩]
  · intro hwf ho
    unfold submitPreQuestionnaire
    simp only []
    rw [if_neg (not_not_intro hwf)]
    rw [if_neg (fun hcond => hcond.1 ho)]
    rw [if_pos ho]
    by_cases hp2 : pqSubmitted c.preQuestionnaireUser2 = true
    · rw [if_pos ⟨rfl, hp2⟩]
      exact ⟨_, rfl, rfl, rfl, by rw [if_pos hp2]⟩
    · rw [if_neg (fun hcond => hp2 hcond.2)]
      exact ⟨_, rfl, rfl, rfl, by rw [if_neg hp2]; exact hwf⟩
  · intro hwf ho hi
    unfold submitPreQuestionnaire
    simp only []
    rw [if_neg (not_not_intro hwf)]
    rw [if_neg (fun hcond => hcond.2 hi)]
    rw [if_neg ho]
    by_cases hp1 : pqSubmitted c.preQuestionnaireUser1 = true
    · rw [if_pos ⟨hp1, rfl⟩]
      exact ⟨_, rfl, rfl, rfl, by rw [if_pos hp1]⟩
    · rw [if_neg (fun hcond => hp1 hcond.1)]
      exact ⟨_, rfl, rfl, rfl, by rw [if_neg hp1]; exact hwf⟩

/-- Concrete LAWYER-stage case for the C9 witness. -/
def c9Base : Case Nat :=
  { (createCase 1 "w" : Case Nat) with workflowStatus := "LAWYER", invitedUser := some 2 }

/-- Witness for C9: the owner submission on a LAWYER-stage case marks
party 1 submitted. -/
theorem C9_preQuestionnaire_gate_witness :
    ((submitPreQuestionnaire c9Base 1 ["a"] 3).toOption.map
        (fun c => pqSubmitted c.preQuestionnaireUser1)) = some true := by
  obtain ⟨c', h1, h2, _⟩ := (C9_preQuestionnaire_gate c9Base 1 ["a"] 3).2.2.1 rfl rfl
  rw [h1]
  show some (pqSubmitted c'.preQuestionnaireUser1) = some true
  rw [h2]
  rfl

/-- Claim C10 (confirmed): the step-7 handler marks step 7 submitted
before evaluating the required-step check, so the requirement that step
7 be already submitted is discharged by the call itself: with the
owner steps 1,2,5,6 and invited steps 3,4 submitted, an invited user
attached and step 7 never submitted before, the first step-7 submission
succeeds and fully locks the case; and on every case, step 7 never
appears in either computed missing list, hence never in the error
message. -/
theorem C10_step7_self_submission {D : Type} (c : Case D) (data : D) (actorId : Nat)
    (isPrivileged : Bool) (now u : Nat)
    (hcm : ¬ (c.workflowStatus = "CM" ∧ isPrivileged = false ∧ ¬ assignedManagerMatches c actorId))
    (hlock : ¬ (c.fullyLocked = true ∧ isPrivileged = false))
    (hinv : c.invitedUser = some u)
    (hsub : ∀ n, n ∈ [1, 2, 3, 4, 5, 6] → stepSubmittedIn c.status n = true)
    (_hfirst : stepSubmittedIn c.status 7 = false) :
    (∃ c', updateStep c 7 data actorId isPrivileged now = .ok c' ∧ c'.fullyLocked = true) ∧
    (∀ (c2 : Case D) (a2 t2 : Nat),
       7 ∉ missingOwnerSteps c2 a2 t2 ∧ 7 ∉ missingInvitedSteps c2 a2 t2) := by
  constructor
  · obtain ⟨hm1, hm2⟩ := missing_empty c actorId now hsub
    unfold updateStep
    rw [if_neg (by omega : ¬ ((7 : Nat) < 1 ∨ 7 < 7))]
    rw [if_neg hcm, if_neg hlock, if_pos rfl]
    rw [if_neg (by simp [hinv])]
    rw [if_neg (by
      push_neg
      exact ⟨by simpa [missingOwnerSteps] using hm1, by simpa [missingInvitedSteps] using hm2⟩)]
    exact ⟨_, rfl, rfl⟩
  · intro c2 a2 t2
    have hs := stepSubmittedIn_markSubmitted_self c2.status 7 a2 t2 (by omega) (by omega)
    constructor <;>
      simp [missingOwnerSteps, missingInvitedSteps, requiredUser1, requiredUser2,
        List.mem_filter, hs]

/-- Concrete input for the C10 witness: like `c3Base`, a case with
steps 1-6 submitted and step 7 untouched. -/
def c10Base : Case Nat :=
  { (createCase 1 "v" : Case Nat) with
    invitedUser := some 2,
    status :=
      ⟨some { defaultStepStatus with submitted := true },
       some { defaultStepStatus with submitted := true },
       some { defaultStepStatus with submitted := true },
       some { defaultStepStatus with submitted := true },
       some { defaultStepStatus with submitted := true },
       some { defaultStepStatus with submitted := true },
       none⟩ }

/-- Witness for C10: the first-ever step-7 submission on `c10Base`
succeeds and fully locks, and 7 is not among its missing owner steps. -/
theorem C10_step7_self_submission_witness :
    ((updateStep c10Base 7 (0 : Nat) 1 false 9).toOption.map Case.fullyLocked) = some true ∧
    7 ∉ missingOwnerSteps c10Base 1 9 := by
  obtain ⟨⟨c', h1, h2⟩, hnever⟩ :=
    C10_step7_self_submission c10Base (0 : Nat) 1 false 9 2
      (by decide) (by decide) rfl (by decide) rfl
  constructor
  · rw [h1]
    simp [Except.toOption, h2]
  · exact (hnever c10Base 1 9).1

end Claims

end Prenup
